import Mathlib

/-!
Shallow embedding of the Datasource resource service
(`internal/api/impl/v1/datasource/service.go`) of the perses repository.

The service orchestrates the five lifecycle operations (Create, Update,
Delete, Get, List) over an external Persistence Collaborator (the DAO)
and an external Schema Validator, translating collaborator failures into
a caller-facing error taxonomy.

Modelling choices:
* the Go `error` values returned by the collaborator are a closed
  error-kind enumeration `DbError` (key conflict, key not found, other);
* the caller-facing errors are `ApiError`; the constructor `ApiError.db`
  embeds an untranslated collaborator error passed through verbatim
  (only `List` produces it);
* the DAO is a record of pure functions over an abstract store state `σ`,
  mutators returning the new state; the Schema Validator is the
  uninterpreted function field `validateDatasource` over an abstract
  schema-set type `τ`;
* timestamps are `Nat`, the current time is an explicit `now` argument;
* in-place mutation of the caller's entity (Go pointer semantics) is
  explicit state passing: `service.create` also returns the final value
  of the caller's entity object.
-/

set_option autoImplicit false

namespace Perses

/-- Resource metadata: name, project scope, timestamps, and the opaque
version/identity token carried forward across updates. -/
structure Metadata where
  name : String
  project : String
  createdAt : Nat
  updatedAt : Nat
  version : Nat
  deriving DecidableEq, Repr

/-- Datasource spec: `Default` flag, `Kind` discriminator, and the
plugin-specific payload (opaque to this layer). -/
structure DatasourceSpec where
  kind : String
  default : Bool
  plugin : String
  deriving DecidableEq, Repr

/-- The managed Datasource resource. -/
structure Datasource where
  metadata : Metadata
  spec : DatasourceSpec
  deriving DecidableEq, Repr

/-- The polymorphic `api.Entity` value received at the service boundary,
modelled as a closed tagged variant: either a Datasource, or some other
entity variant identified by its type name. -/
inductive Entity where
  | datasource (d : Datasource)
  | other (typeName : String)
  deriving DecidableEq, Repr

/-- `shared.Parameters`: the caller-supplied scope and name identifying a
target resource. -/
structure Parameters where
  project : String
  name : String
  deriving DecidableEq, Repr

/-- `datasource.Query`: the caller-supplied filter set for List. -/
structure Query where
  project : String
  kind : String
  default : Bool
  deriving DecidableEq, Repr

/-- Closed enumeration of the error conditions surfaced by the Persistence
Collaborator: key conflict, key not found, or any other failure
(identified by an opaque code). -/
inductive DbError where
  | keyConflict
  | keyNotFound
  | failure (code : Nat)
  deriving DecidableEq, Repr

/-- The message a collaborator error renders to when interpolated into a
wrapped error string. -/
def DbError.message : DbError → String
  | .keyConflict => "key conflict"
  | .keyNotFound => "key not found"
  | .failure code => "database failure " ++ toString code

namespace databaseModel

/-- `databaseModel.IsKeyConflict`: recognizes the key-conflict condition. -/
def IsKeyConflict : DbError → Bool
  | .keyConflict => true
  | _ => false

/-- `databaseModel.IsKeyNotFound`: recognizes the key-not-found condition. -/
def IsKeyNotFound : DbError → Bool
  | .keyNotFound => true
  | _ => false

end databaseModel

/-- The caller-facing error taxonomy produced by the service.
`badRequest` carries the wrapped detail message; `db` is a collaborator
error passed through to the caller unmodified (no translation). -/
inductive ApiError where
  | badRequest (msg : String)
  | conflict
  | notFound
  | internal
  | db (e : DbError)
  deriving DecidableEq, Repr

/-- The error returned by the internal `validate` helper: either a
collaborator error surfaced as-is from the list retrieval, or a schema
validation failure message. -/
inductive ValidateError where
  | db (e : DbError)
  | schema (msg : String)
  deriving DecidableEq, Repr

/-- The message of a validate error, as interpolated by `%s` when the
caller wraps it under the malformed-request kind. -/
def ValidateError.message : ValidateError → String
  | .db e => e.message
  | .schema msg => msg

/-- The Persistence Collaborator interface (`datasource.DAO`), as a record
of pure functions over an abstract store state `σ`; mutators return the
new state, reads return values. -/
structure DAO (σ : Type) where
  create : Datasource → σ → Except DbError σ
  update : Datasource → σ → Except DbError σ
  delete : String → String → σ → Except DbError σ
  get : String → String → σ → Except DbError Datasource
  list : Query → σ → Except DbError (List Datasource)

/-- The service under verification: its DAO, its schema set `sch : τ`
(opaque to this layer), and the external Schema Validator
`validate.Datasource(entity, list, schemaSet)` as an uninterpreted
function (it is repository code outside the verified source). -/
structure service (σ τ : Type) where
  dao : DAO σ
  sch : τ
  validateDatasource : Datasource → List Datasource → τ → Except String Unit

/-- Modelled from the spec: `Metadata.CreateNow` stamps the creation
timestamp on the entity at creation time (`Create ... stamps the creation
timestamp`; timestamps are populated on create). The method body lives in
`pkg/model/api/v1`, outside the verified source. -/
def Metadata.CreateNow (m : Metadata) (now : Nat) : Metadata :=
  { m with createdAt := now, updatedAt := now }

/-- Modelled from the spec: `Metadata.Update(previous)` merges metadata on
update: `the new entity keeps its own spec but inherits the creation
timestamp and internal identity token from the prior version, and
receives a fresh update timestamp`. The method body lives in
`pkg/model/api/v1`, outside the verified source. -/
def Metadata.Update (m : Metadata) (previous : Metadata) (now : Nat) : Metadata :=
  { m with
    createdAt := previous.createdAt
    version := previous.version
    updatedAt := now }

/-- Modelled from the spec: `v1.FilterDatasource(kind, default, list)`
keeps exactly the elements whose `Kind` equals the query kind (exact
match) and whose `Default` equals the query default (boolean match),
preserving order. The function body lives in `pkg/model/api/v1`, outside
the verified source. -/
def FilterDatasource (kind : String) (deflt : Bool) (list : List Datasource) :
    List Datasource :=
  list.filter fun d => d.spec.kind == kind && d.spec.default == deflt

/-- `service.validate`: when the entity is flagged as a default
datasource, retrieve the full list of datasources of the entity's project
(list errors surfaced as-is); then delegate to the Schema Validator with
the entity, the list (empty when not default) and the schema set. -/
def service.validate {σ τ : Type} (s : service σ τ) (entity : Datasource)
    (st : σ) : Except ValidateError Unit :=
  match (if entity.spec.default then
           s.dao.list { project := entity.metadata.project, kind := "", default := false } st
         else Except.ok []) with
  | .error e => .error (.db e)
  | .ok list =>
      match s.validateDatasource entity list s.sch with
      | .error msg => .error (.schema msg)
      | .ok u => .ok u

/-- `service.create`: validate (wrapping a failure under the
malformed-request kind), stamp the creation timestamp onto the entity,
submit to the collaborator, translating key conflicts to the conflict
error and anything else to the internal error. The second component of
the result is the final value of the caller's entity object (the Go code
mutates it in place before the store write). -/
def service.create {σ τ : Type} (s : service σ τ) (now : Nat)
    (entity : Datasource) (st : σ) :
    Except ApiError (Datasource × σ) × Datasource :=
  match service.validate s entity st with
  | .error e => (.error (.badRequest e.message), entity)
  | .ok _ =>
    let stamped : Datasource := { entity with metadata := entity.metadata.CreateNow now }
    match s.dao.create stamped st with
    | .error e =>
        if databaseModel.IsKeyConflict e then (.error .conflict, stamped)
        else (.error .internal, stamped)
    | .ok st1 => (.ok (stamped, st1), stamped)

/-- `service.Create`: boundary dispatch on the entity variant; a
non-Datasource variant fails malformed-request naming the received type. -/
def service.Create {σ τ : Type} (s : service σ τ) (now : Nat)
    (entity : Entity) (st : σ) : Except ApiError (Datasource × σ) :=
  match entity with
  | .datasource d => (service.create s now d st).1
  | .other typeName =>
      .error (.badRequest
        ("wrong entity format, attempting Datasource format, received " ++ typeName))

/-- `service.Get`: point read, translating key-not-found to the not-found
error and any other collaborator failure to the internal error. -/
def service.Get {σ τ : Type} (s : service σ τ) (p : Parameters) (st : σ) :
    Except ApiError Datasource :=
  match s.dao.get p.project p.name st with
  | .error e =>
      if databaseModel.IsKeyNotFound e then .error .notFound
      else .error .internal
  | .ok entity => .ok entity

/-- `service.update`: validate (wrapped as malformed-request on failure),
check name consistency with the path parameters, fill an empty project
from the parameters or reject a non-empty mismatch, fetch the prior
version through `service.Get` (propagating its error unchanged), merge
metadata forward, and submit the write, translating any write failure to
the internal error. -/
def service.update {σ τ : Type} (s : service σ τ) (now : Nat)
    (entity : Datasource) (p : Parameters) (st : σ) :
    Except ApiError (Datasource × σ) :=
  match service.validate s entity st with
  | .error e => .error (.badRequest e.message)
  | .ok _ =>
    if entity.metadata.name ≠ p.name then
      .error (.badRequest "metadata.name and the name in the http path request do not match")
    else
      match (if entity.metadata.project.length = 0 then
               Except.ok { entity with metadata := { entity.metadata with project := p.project } }
             else if entity.metadata.project ≠ p.project then
               Except.error (ApiError.badRequest
                 "metadata.project and the project name in the http path request do not match")
             else Except.ok entity) with
      | .error e => .error e
      | .ok entity1 =>
        match service.Get s p st with
        | .error e => .error e
        | .ok oldObject =>
          let entity2 : Datasource :=
            { entity1 with metadata := entity1.metadata.Update oldObject.metadata now }
          match s.dao.update entity2 st with
          | .error _ => .error .internal
          | .ok st1 => .ok (entity2, st1)

/-- `service.Update`: boundary dispatch on the entity variant. -/
def service.Update {σ τ : Type} (s : service σ τ) (now : Nat)
    (entity : Entity) (p : Parameters) (st : σ) :
    Except ApiError (Datasource × σ) :=
  match entity with
  | .datasource d => service.update s now d p st
  | .other typeName =>
      .error (.badRequest
        ("wrong entity format, attempting Datasource format, received " ++ typeName))

/-- `service.Delete`: point delete, translating key-not-found to the
not-found error and any other collaborator failure to the internal error;
success carries no value beyond the (threaded) store state. -/
def service.Delete {σ τ : Type} (s : service σ τ) (p : Parameters) (st : σ) :
    Except ApiError σ :=
  match s.dao.delete p.project p.name st with
  | .error e =>
      if databaseModel.IsKeyNotFound e then .error .notFound
      else .error .internal
  | .ok st1 => .ok st1

/-- `service.List`: delegate to the collaborator, then apply the
in-memory `FilterDatasource` filter by the query kind and default flag; a
collaborator error is returned to the caller unmodified (`ApiError.db`
embeds it verbatim, with no translation). -/
def service.List {σ τ : Type} (s : service σ τ) (q : Query)
    (_p : Parameters) (st : σ) : Except ApiError (List Datasource) :=
  match s.dao.list q st with
  | .error e => .error (.db e)
  | .ok dtsList => .ok (FilterDatasource q.kind q.default dtsList)

/-! ### A concrete Persistence Collaborator over an in-memory store -/

/-- The store of the concrete collaborator model: a list of datasources
keyed by (project, name). -/
abbrev Store := List Datasource

/-- Point lookup by (project, name). -/
def storeFind (st : Store) (project name : String) : Option Datasource :=
  st.find? fun d => d.metadata.project == project && d.metadata.name == name

/-- Remove every element keyed by (project, name). -/
def storeRemove (st : Store) (project name : String) : Store :=
  st.filter fun d => !(d.metadata.project == project && d.metadata.name == name)

/-- Modelled from the spec: the Persistence Collaborator of section 6, a
key-value store keyed by (scope, name): `Create` fails with key-conflict
when the key exists, `Update` overwrites by key, `Delete` and `Get` fail
with key-not-found when the key is absent, `List` is a scope-filtered
listing. The collaborator implementation is outside the verified source. -/
def storeDAO : DAO Store where
  create entity st :=
    match storeFind st entity.metadata.project entity.metadata.name with
    | some _ => .error .keyConflict
    | none => .ok (st ++ [entity])
  update entity st :=
    .ok (storeRemove st entity.metadata.project entity.metadata.name ++ [entity])
  delete project name st :=
    match storeFind st project name with
    | none => .error .keyNotFound
    | some _ => .ok (storeRemove st project name)
  get project name st :=
    match storeFind st project name with
    | none => .error .keyNotFound
    | some d => .ok d
  list q st := .ok (st.filter fun d => d.metadata.project == q.project)

/-! ### Concrete instances used by witnesses and counterexamples -/

/-- A Schema Validator that accepts everything. -/
def okValidator : Datasource → List Datasource → Unit → Except String Unit :=
  fun _ _ _ => Except.ok ()

/-- A service over the concrete in-memory collaborator, with an
all-accepting Schema Validator. -/
def sampleSvc : service Store Unit :=
  { dao := storeDAO, sch := (), validateDatasource := okValidator }

/-- A service whose Schema Validator rejects everything. -/
def rejectSvc : service Store Unit :=
  { dao := storeDAO, sch := (),
    validateDatasource := fun _ _ _ => Except.error "schema rejected" }

/-- A DAO every operation of which fails with an unexpected storage
failure (neither key-conflict nor key-not-found). -/
def failingDAO : DAO Unit where
  create _ _ := .error (.failure 7)
  update _ _ := .error (.failure 7)
  delete _ _ _ := .error (.failure 7)
  get _ _ _ := .error (.failure 7)
  list _ _ := .error (.failure 7)

/-- A service over the always-failing DAO. -/
def failingSvc : service Unit Unit :=
  { dao := failingDAO, sch := (), validateDatasource := okValidator }

/-- A sample non-default datasource. -/
def sampleDS : Datasource :=
  { metadata := { name := "ds1", project := "p1", createdAt := 0, updatedAt := 0, version := 0 },
    spec := { kind := "prometheus", default := false, plugin := "cfg" } }

/-- A previously stored version of the sample datasource, with distinct
creation timestamp, update timestamp, version token and plugin payload. -/
def oldSampleDS : Datasource :=
  { metadata := { name := "ds1", project := "p1", createdAt := 3, updatedAt := 3, version := 9 },
    spec := { kind := "prometheus", default := false, plugin := "oldcfg" } }

/-- A DAO whose point read succeeds with the previously stored sample but
whose write fails with an unexpected storage failure. -/
def failingUpdateDAO : DAO Unit where
  create _ _ := .ok ()
  update _ _ := .error (.failure 7)
  delete _ _ _ := .ok ()
  get _ _ _ := .ok oldSampleDS
  list _ _ := .ok []

/-- A service over `failingUpdateDAO`. -/
def failingUpdateSvc : service Unit Unit :=
  { dao := failingUpdateDAO, sch := (), validateDatasource := okValidator }

/-- Sample datasources for the List scenario: two prometheus and one
tempo datasource in project p1 (one prometheus flagged default), and one
prometheus datasource in project p2. -/
def dsA : Datasource :=
  { metadata := { name := "a", project := "p1", createdAt := 0, updatedAt := 0, version := 0 },
    spec := { kind := "prometheus", default := false, plugin := "cfgA" } }

/-- Second sample for the List scenario (tempo kind). -/
def dsB : Datasource :=
  { metadata := { name := "b", project := "p1", createdAt := 0, updatedAt := 0, version := 0 },
    spec := { kind := "tempo", default := false, plugin := "cfgB" } }

/-- Third sample for the List scenario (default flagged). -/
def dsC : Datasource :=
  { metadata := { name := "c", project := "p1", createdAt := 0, updatedAt := 0, version := 0 },
    spec := { kind := "prometheus", default := true, plugin := "cfgC" } }

/-- Fourth sample for the List scenario (other project). -/
def dsD : Datasource :=
  { metadata := { name := "d", project := "p2", createdAt := 0, updatedAt := 0, version := 0 },
    spec := { kind := "prometheus", default := false, plugin := "cfgD" } }

/-- A sample default-flagged datasource. -/
def defaultDS : Datasource :=
  { metadata := { name := "ds1", project := "p1", createdAt := 0, updatedAt := 0, version := 0 },
    spec := { kind := "prometheus", default := true, plugin := "cfg" } }

/-- A DAO that succeeds on the global (empty-project) scope listing but
fails on every other scope; reads return the previously stored sample. -/
def emptyScopeDAO : DAO Unit where
  create _ _ := .ok ()
  update _ _ := .ok ()
  delete _ _ _ := .ok ()
  get _ _ _ := .ok oldSampleDS
  list q _ := if q.project == "" then .ok [] else .error (.failure 3)

/-- A DAO that agrees with `emptyScopeDAO` on the global (empty-project)
scope listing, reads and writes, but answers scoped listings with a
default-flagged datasource instead of failing. -/
def emptyScopeDAO2 : DAO Unit where
  create _ _ := .ok ()
  update _ _ := .ok ()
  delete _ _ _ := .ok ()
  get _ _ _ := .ok oldSampleDS
  list q _ := if q.project == "" then .ok [] else .ok [defaultDS]

/-- A service over `emptyScopeDAO`. -/
def emptyScopeSvc : service Unit Unit :=
  { dao := emptyScopeDAO, sch := (), validateDatasource := okValidator }

/-! ### Claim theorems -/

/-- Claim C1: `Create` fails malformed-request on every non-Datasource
variant; on a Datasource it first runs validation (failing
malformed-request with the wrapped message when validation fails), then
stamps the creation timestamp, then submits the stamped entity to the
collaborator; on success it returns the same, now-timestamped entity; a
key conflict from the collaborator becomes the conflict error and any
other collaborator failure the internal error. -/
theorem create_contract {σ τ : Type} (s : service σ τ) (now : Nat) (st : σ) :
    (∀ typeName, service.Create s now (.other typeName) st =
       .error (.badRequest
         ("wrong entity format, attempting Datasource format, received " ++ typeName))) ∧
    (∀ d e, service.validate s d st = .error e →
       service.Create s now (.datasource d) st = .error (.badRequest e.message)) ∧
    (∀ d st1, service.validate s d st = .ok () →
       s.dao.create { d with metadata := d.metadata.CreateNow now } st = .ok st1 →
       service.Create s now (.datasource d) st =
         .ok ({ d with metadata := d.metadata.CreateNow now }, st1)) ∧
    (∀ d, service.validate s d st = .ok () →
       s.dao.create { d with metadata := d.metadata.CreateNow now } st = .error .keyConflict →
       service.Create s now (.datasource d) st = .error .conflict) ∧
    (∀ d e, service.validate s d st = .ok () →
       s.dao.create { d with metadata := d.metadata.CreateNow now } st = .error e →
       databaseModel.IsKeyConflict e = false →
       service.Create s now (.datasource d) st = .error .internal) := by
  refine ⟨fun typeName => rfl, fun d e hv => ?_, fun d st1 hv hc => ?_,
    fun d hv hc => ?_, fun d e hv hc hnc => ?_⟩
  · simp [service.Create, service.create, hv]
  · simp [service.Create, service.create, hv, hc]
  · simp [service.Create, service.create, hv, hc, databaseModel.IsKeyConflict]
  · simp [service.Create, service.create, hv, hc, hnc]

/-- Witness for C1: the Create contract exercised at concrete inputs on
the concrete in-memory collaborator and validators. -/
theorem create_contract_witness :
    service.Create sampleSvc 5 (.other "Dashboard") [] =
      .error (.badRequest
        "wrong entity format, attempting Datasource format, received Dashboard") ∧
    service.Create rejectSvc 5 (.datasource sampleDS) [] =
      .error (.badRequest "schema rejected") ∧
    service.Create sampleSvc 5 (.datasource sampleDS) [] =
      .ok ({ sampleDS with metadata := sampleDS.metadata.CreateNow 5 },
           [{ sampleDS with metadata := sampleDS.metadata.CreateNow 5 }]) ∧
    service.Create sampleSvc 5 (.datasource sampleDS) [sampleDS] = .error .conflict ∧
    service.Create failingSvc 5 (.datasource sampleDS) () = .error .internal := by
  refine ⟨(create_contract sampleSvc 5 []).1 "Dashboard",
    (create_contract rejectSvc 5 []).2.1 sampleDS (.schema "schema rejected") rfl,
    (create_contract sampleSvc 5 []).2.2.1 sampleDS _ rfl rfl,
    (create_contract sampleSvc 5 [sampleDS]).2.2.2.1 sampleDS rfl rfl,
    (create_contract failingSvc 5 ()).2.2.2.2 sampleDS (.failure 7) rfl rfl rfl⟩

/-- `service.validate` consults the DAO only through its `list` function:
replacing the DAO by one with the same `list` leaves validation
unchanged. -/
theorem validate_dao_congr {σ τ : Type} (s : service σ τ) (dao2 : DAO σ)
    (entity : Datasource) (st : σ) (h : dao2.list = s.dao.list) :
    service.validate { s with dao := dao2 } entity st = service.validate s entity st := by
  simp [service.validate, h]

/-- A string has length zero exactly when it is the empty string. -/
theorem string_length_eq_zero_iff (s : String) : s.length = 0 ↔ s = "" := by
  constructor
  · intro h0
    cases s with
    | mk data =>
      cases data with
      | nil => rfl
      | cons a l => simp [String.length] at h0
  · intro h
    subst h
    rfl

/-- Claim C2: after validation, `update` rejects a name mismatch with
malformed-request regardless of storage state, silently fills an empty
project from the parameters (the merged entity is stored under the
parameter project), and rejects a non-empty mismatching project with
malformed-request; in the two failure cases no store write is performed
(the outcome is independent of the DAO mutators and point reads). -/
theorem update_identity_checks {σ τ : Type} (s : service σ τ) (now : Nat)
    (entity : Datasource) (p : Parameters) (st : σ) :
    (entity.metadata.name ≠ p.name →
       (∃ msg, service.update s now entity p st = .error (.badRequest msg)) ∧
       ∀ dao2 : DAO σ, dao2.list = s.dao.list →
         service.update { s with dao := dao2 } now entity p st =
           service.update s now entity p st) ∧
    (entity.metadata.project ≠ "" → entity.metadata.project ≠ p.project →
       (∃ msg, service.update s now entity p st = .error (.badRequest msg)) ∧
       ∀ dao2 : DAO σ, dao2.list = s.dao.list →
         service.update { s with dao := dao2 } now entity p st =
           service.update s now entity p st) ∧
    (entity.metadata.project = "" → entity.metadata.name = p.name →
       service.validate s entity st = .ok () →
       ∀ oldObject, service.Get s p st = .ok oldObject →
       (service.update s now entity p st =
          match s.dao.update { entity with metadata := Metadata.Update ({ entity.metadata with project := p.project }) oldObject.metadata now } st with
          | .error _ => Except.error ApiError.internal
          | .ok st1 => Except.ok ({ entity with metadata := Metadata.Update ({ entity.metadata with project := p.project }) oldObject.metadata now }, st1)) ∧
       (Metadata.Update ({ entity.metadata with project := p.project }) oldObject.metadata now).project = p.project) := by
  refine ⟨fun hn => ⟨?_, fun dao2 hl => ?_⟩,
    fun hp1 hp2 => ⟨?_, fun dao2 hl => ?_⟩,
    fun hp hn hv oldObject hget => ⟨?_, rfl⟩⟩
  · cases hv : service.validate s entity st with
    | error e => exact ⟨e.message, by simp [service.update, hv]⟩
    | ok u =>
        exact ⟨"metadata.name and the name in the http path request do not match",
          by simp [service.update, hv, hn]⟩
  · rw [service.update, service.update, validate_dao_congr s dao2 entity st hl]
    cases hv : service.validate s entity st with
    | error e => rfl
    | ok u => simp [hn]
  · cases hv : service.validate s entity st with
    | error e => exact ⟨e.message, by simp [service.update, hv]⟩
    | ok u =>
        by_cases hn : entity.metadata.name = p.name
        · refine ⟨"metadata.project and the project name in the http path request do not match", ?_⟩
          have hlen : ¬ entity.metadata.project.length = 0 :=
            fun h0 => hp1 ((string_length_eq_zero_iff entity.metadata.project).mp h0)
          simp [service.update, hv, hn, hlen, hp2]
        · exact ⟨"metadata.name and the name in the http path request do not match",
            by simp [service.update, hv, hn]⟩
  · rw [service.update, service.update, validate_dao_congr s dao2 entity st hl]
    cases hv : service.validate s entity st with
    | error e => rfl
    | ok u =>
        by_cases hn : entity.metadata.name = p.name
        · have hlen : ¬ entity.metadata.project.length = 0 :=
            fun h0 => hp1 ((string_length_eq_zero_iff entity.metadata.project).mp h0)
          simp [hn, hlen, hp2]
        · simp [hn]
  · have hlen : entity.metadata.project.length = 0 := by simp [hp]
    simp [service.update, hv, hn, hlen, hget]

/-- Witness for C2: the identity checks exercised at concrete inputs over
the concrete in-memory collaborator. -/
theorem update_identity_checks_witness :
    (∃ msg, service.update sampleSvc 5 sampleDS { project := "p1", name := "zzz" } [] =
       .error (.badRequest msg)) ∧
    (∃ msg, service.update sampleSvc 5 sampleDS { project := "p2", name := "ds1" } [] =
       .error (.badRequest msg)) ∧
    service.update sampleSvc 7
        { sampleDS with metadata := { sampleDS.metadata with project := "" } }
        { project := "p1", name := "ds1" } [sampleDS] =
      .ok ({ sampleDS with metadata := Metadata.Update ({ sampleDS.metadata with project := "p1" }) sampleDS.metadata 7 },
        [{ sampleDS with metadata := Metadata.Update ({ sampleDS.metadata with project := "p1" }) sampleDS.metadata 7 }]) := by
  refine ⟨((update_identity_checks sampleSvc 5 sampleDS
      { project := "p1", name := "zzz" } []).1 (by decide)).1,
    ((update_identity_checks sampleSvc 5 sampleDS
      { project := "p2", name := "ds1" } []).2.1 (by decide) (by decide)).1, ?_⟩
  have h := ((update_identity_checks sampleSvc 7
      { sampleDS with metadata := { sampleDS.metadata with project := "" } }
      { project := "p1", name := "ds1" } [sampleDS]).2.2 rfl rfl rfl sampleDS rfl).1
  exact h.trans rfl

/-- `service.Get` consults the DAO only through its `get` function. -/
theorem get_dao_congr {σ τ : Type} (s : service σ τ) (dao2 : DAO σ)
    (p : Parameters) (st : σ) (h : dao2.get = s.dao.get) :
    service.Get { s with dao := dao2 } p st = service.Get s p st := by
  simp [service.Get, h]

/-- Claim C3: `Get` translates a key-not-found condition into the
not-found error and any other collaborator failure into the internal
error; `update` fetches the prior version through `Get(parameters)` and
propagates a not-found unchanged, failing not-found on a nonexistent
target without writing to the store (the outcome is independent of the
DAO mutators). -/
theorem get_not_found_propagation {σ τ : Type} (s : service σ τ) (now : Nat)
    (entity : Datasource) (p : Parameters) (st : σ) :
    (∀ e, s.dao.get p.project p.name st = .error e →
       databaseModel.IsKeyNotFound e = true →
       service.Get s p st = .error .notFound) ∧
    (∀ e, s.dao.get p.project p.name st = .error e →
       databaseModel.IsKeyNotFound e = false →
       service.Get s p st = .error .internal) ∧
    (service.validate s entity st = .ok () →
       entity.metadata.name = p.name →
       (entity.metadata.project = "" ∨ entity.metadata.project = p.project) →
       service.Get s p st = .error .notFound →
       service.update s now entity p st = .error .notFound ∧
       ∀ dao2 : DAO σ, dao2.list = s.dao.list → dao2.get = s.dao.get →
         service.update { s with dao := dao2 } now entity p st =
           service.update s now entity p st) := by
  refine ⟨fun e he hk => by simp [service.Get, he, hk],
    fun e he hk => by simp [service.Get, he, hk],
    fun hv hn hproj hget => ⟨?_, fun dao2 hl hg => ?_⟩⟩
  · rcases hproj with hp | hp
    · have hlen : entity.metadata.project.length = 0 := by simp [hp]
      simp [service.update, hv, hn, hlen, hget]
    · have hnn : (entity.metadata.name ≠ p.name) = False := by simp [hn]
      have hpf : (entity.metadata.project ≠ p.project) = False := by simp [hp]
      by_cases hlen : entity.metadata.project.length = 0
      · simp [service.update, hv, hnn, hlen, hget]
      · have hlenf : (entity.metadata.project.length = 0) = False := by simp [hlen]
        simp [service.update, hv, hnn, hlenf, hpf, hget]
  · rw [service.update, service.update, validate_dao_congr s dao2 entity st hl, hv]
    have hGet := get_dao_congr s dao2 p st hg
    rcases hproj with hp | hp
    · have hlen : entity.metadata.project.length = 0 := by simp [hp]
      simp [hn, hlen, hGet, hget]
    · have hnn : (entity.metadata.name ≠ p.name) = False := by simp [hn]
      have hpf : (entity.metadata.project ≠ p.project) = False := by simp [hp]
      by_cases hlen : entity.metadata.project.length = 0
      · simp [hnn, hlen, hGet, hget]
      · have hlenf : (entity.metadata.project.length = 0) = False := by simp [hlen]
        simp [hnn, hlenf, hpf, hGet, hget]

/-- Witness for C3: the translations and the not-found propagation
exercised at concrete inputs. -/
theorem get_not_found_propagation_witness :
    service.Get sampleSvc { project := "p1", name := "ds1" } [] = .error .notFound ∧
    service.Get failingSvc { project := "p1", name := "ds1" } () = .error .internal ∧
    service.update sampleSvc 5 sampleDS { project := "p1", name := "ds1" } [] =
      .error .notFound := by
  refine ⟨(get_not_found_propagation sampleSvc 5 sampleDS
      { project := "p1", name := "ds1" } []).1 .keyNotFound rfl rfl,
    (get_not_found_propagation failingSvc 5 sampleDS
      { project := "p1", name := "ds1" } ()).2.1 (.failure 7) rfl rfl,
    ((get_not_found_propagation sampleSvc 5 sampleDS
      { project := "p1", name := "ds1" } []).2.2 rfl rfl (Or.inr rfl) rfl).1⟩

/-- Claim C4: on the successful-update path, the written and returned
entity keeps the submitted entity's spec, inherits the creation timestamp
and the version token from the previously stored version, and receives
the fresh update timestamp; a collaborator failure on the write is
translated to the internal error, whatever the failure condition. -/
theorem update_merge_write {σ τ : Type} (s : service σ τ) (now : Nat)
    (entity : Datasource) (p : Parameters) (st : σ)
    (hv : service.validate s entity st = .ok ())
    (hn : entity.metadata.name = p.name)
    (hproj : entity.metadata.project = "" ∨ entity.metadata.project = p.project)
    (oldObject : Datasource)
    (hget : service.Get s p st = .ok oldObject) :
    (service.update s now entity p st =
       match s.dao.update { entity with metadata := Metadata.Update ({ entity.metadata with project := p.project }) oldObject.metadata now } st with
       | .error _ => Except.error ApiError.internal
       | .ok st1 => Except.ok ({ entity with metadata := Metadata.Update ({ entity.metadata with project := p.project }) oldObject.metadata now }, st1)) ∧
    ({ entity with metadata := Metadata.Update ({ entity.metadata with project := p.project }) oldObject.metadata now } : Datasource).spec = entity.spec ∧
    (Metadata.Update ({ entity.metadata with project := p.project }) oldObject.metadata now).createdAt = oldObject.metadata.createdAt ∧
    (Metadata.Update ({ entity.metadata with project := p.project }) oldObject.metadata now).version = oldObject.metadata.version ∧
    (Metadata.Update ({ entity.metadata with project := p.project }) oldObject.metadata now).updatedAt = now ∧
    (∀ e, s.dao.update { entity with metadata := Metadata.Update ({ entity.metadata with project := p.project }) oldObject.metadata now } st = .error e →
       service.update s now entity p st = .error .internal) := by
  have key : service.update s now entity p st =
      match s.dao.update { entity with metadata := Metadata.Update ({ entity.metadata with project := p.project }) oldObject.metadata now } st with
      | .error _ => Except.error ApiError.internal
      | .ok st1 => Except.ok ({ entity with metadata := Metadata.Update ({ entity.metadata with project := p.project }) oldObject.metadata now }, st1) := by
    rcases hproj with hp | hp
    · have hlen : entity.metadata.project.length = 0 := by simp [hp]
      simp [service.update, hv, hn, hlen, hget]
    · have hmeta : ({ entity.metadata with project := p.project } : Metadata) = entity.metadata := by
        rw [← hp]
      have hnn : (entity.metadata.name ≠ p.name) = False := by simp [hn]
      have hpf : (entity.metadata.project ≠ p.project) = False := by simp [hp]
      by_cases hlen : entity.metadata.project.length = 0
      · simp [service.update, hv, hnn, hlen, hget, hmeta]
      · have hlenf : (entity.metadata.project.length = 0) = False := by simp [hlen]
        simp [service.update, hv, hnn, hlenf, hpf, hget, hmeta]
  refine ⟨key, rfl, rfl, rfl, rfl, fun e he => ?_⟩
  rw [key, he]

/-- Witness for C4: the merge and the write-failure translation exercised
at concrete inputs; the prior version has creation timestamp 3 and
version 9, inherited by the merged entity, which keeps the submitted
spec and gets update timestamp 7. -/
theorem update_merge_write_witness :
    service.update sampleSvc 7 sampleDS { project := "p1", name := "ds1" } [oldSampleDS] =
      .ok ({ sampleDS with metadata := Metadata.Update sampleDS.metadata oldSampleDS.metadata 7 },
        [{ sampleDS with metadata := Metadata.Update sampleDS.metadata oldSampleDS.metadata 7 }]) ∧
    (Metadata.Update sampleDS.metadata oldSampleDS.metadata 7).createdAt = 3 ∧
    (Metadata.Update sampleDS.metadata oldSampleDS.metadata 7).version = 9 ∧
    (Metadata.Update sampleDS.metadata oldSampleDS.metadata 7).updatedAt = 7 ∧
    service.update failingUpdateSvc 7 sampleDS { project := "p1", name := "ds1" } () =
      .error .internal := by
  have h := update_merge_write sampleSvc 7 sampleDS
    { project := "p1", name := "ds1" } [oldSampleDS] rfl rfl (Or.inr rfl) oldSampleDS rfl
  have h2 := update_merge_write failingUpdateSvc 7 sampleDS
    { project := "p1", name := "ds1" } () rfl rfl (Or.inr rfl) oldSampleDS rfl
  exact ⟨h.1.trans rfl, rfl, rfl, rfl,
    h2.2.2.2.2.2 (.failure 7) rfl⟩

/-- Removing a key from the concrete store makes a point lookup of that
key fail. -/
theorem storeFind_storeRemove (st : Store) (project name : String) :
    storeFind (storeRemove st project name) project name = none := by
  rw [storeFind, List.find?_eq_none]
  intro d hd
  have h := (List.mem_filter.mp hd).2
  simp only [Bool.not_eq_eq_eq_not, Bool.not_true] at h
  simp [h]

/-- Claim C5: `Delete` translates a key-not-found from the collaborator
to the not-found error and any other collaborator failure to the internal
error; success carries no result value beyond the store state; and over
the concrete key-value collaborator, a `Get` with the same parameters
after a successful `Delete` fails not-found. -/
theorem delete_contract {σ τ : Type} (s : service σ τ) (p : Parameters) (st : σ) :
    (s.dao.delete p.project p.name st = .error .keyNotFound →
       service.Delete s p st = .error .notFound) ∧
    (∀ e, s.dao.delete p.project p.name st = .error e →
       databaseModel.IsKeyNotFound e = false →
       service.Delete s p st = .error .internal) ∧
    (∀ st1, s.dao.delete p.project p.name st = .ok st1 →
       service.Delete s p st = .ok st1) ∧
    (∀ (s2 : service Store τ) (st0 st1 : Store), s2.dao = storeDAO →
       service.Delete s2 p st0 = .ok st1 →
       service.Get s2 p st1 = .error .notFound) := by
  refine ⟨fun he => by simp [service.Delete, he, databaseModel.IsKeyNotFound],
    fun e he hk => by simp [service.Delete, he, hk],
    fun st1 he => by simp [service.Delete, he],
    fun s2 st0 st1 hdao hdel => ?_⟩
  rw [service.Delete, hdao] at hdel
  cases hf : storeFind st0 p.project p.name with
  | none => simp [storeDAO, hf, databaseModel.IsKeyNotFound] at hdel
  | some d =>
      simp [storeDAO, hf] at hdel
      rw [service.Get, hdao]
      simp [storeDAO, ← hdel, storeFind_storeRemove, databaseModel.IsKeyNotFound]

/-- Witness for C5: the Delete contract exercised at concrete inputs; the
store holding only the sample datasource is empty after deleting it, and
the subsequent Get fails not-found. -/
theorem delete_contract_witness :
    service.Delete sampleSvc { project := "p1", name := "ds1" } [] = .error .notFound ∧
    service.Delete failingSvc { project := "p1", name := "ds1" } () = .error .internal ∧
    service.Delete sampleSvc { project := "p1", name := "ds1" } [sampleDS] = .ok [] ∧
    service.Get sampleSvc { project := "p1", name := "ds1" } [] = .error .notFound := by
  refine ⟨(delete_contract sampleSvc { project := "p1", name := "ds1" } []).1 rfl,
    (delete_contract failingSvc { project := "p1", name := "ds1" } ()).2.1 (.failure 7) rfl rfl,
    (delete_contract sampleSvc { project := "p1", name := "ds1" } [sampleDS]).2.2.1 [] rfl,
    (delete_contract sampleSvc { project := "p1", name := "ds1" } [sampleDS]).2.2.2
      sampleSvc [sampleDS] [] rfl rfl⟩

/-- Claim C6: `List` delegates the query to the collaborator and filters
the returned sequence in memory, keeping exactly the elements whose kind
equals the query kind and whose default flag equals the query default
flag, in the collaborator-provided order; a collaborator error is
returned to the caller unmodified, embedded verbatim rather than
translated into the taxonomy of the other operations. -/
theorem list_contract {σ τ : Type} (s : service σ τ) (q : Query)
    (p : Parameters) (st : σ) :
    (∀ l, s.dao.list q st = .ok l →
       service.List s q p st =
         .ok (l.filter fun d => d.spec.kind == q.kind && d.spec.default == q.default)) ∧
    (∀ e, s.dao.list q st = .error e → service.List s q p st = .error (.db e)) := by
  exact ⟨fun l hl => by simp [service.List, hl, FilterDatasource],
    fun e he => by simp [service.List, he]⟩

/-- Witness for C6: the concrete List scenario: querying project p1 for
non-default prometheus datasources over the four-element store keeps only
`dsA`; a collaborator failure is passed through verbatim. -/
theorem list_contract_witness :
    service.List sampleSvc { project := "p1", kind := "prometheus", default := false }
      { project := "p1", name := "" } [dsA, dsB, dsC, dsD] = .ok [dsA] ∧
    service.List failingSvc { project := "p1", kind := "prometheus", default := false }
      { project := "p1", name := "" } () = .error (.db (.failure 7)) := by
  refine ⟨?_, (list_contract failingSvc
      { project := "p1", kind := "prometheus", default := false }
      { project := "p1", name := "" } ()).2 (.failure 7) rfl⟩
  have h := (list_contract sampleSvc
      { project := "p1", kind := "prometheus", default := false }
      { project := "p1", name := "" } [dsA, dsB, dsC, dsD]).1 [dsA, dsB, dsC] rfl
  exact h.trans rfl

/-- Claim C7: `validate` consults the collaborator exactly when the
entity is default-flagged (otherwise it is independent of the DAO and
invokes the Schema Validator with the empty list); when default-flagged,
the list query holds only the entity project (zero-valued kind and
default filters), a list failure is returned as-is without translation,
and a retrieved list is handed to the Schema Validator with the entity
and the schema set. -/
theorem validate_contract {σ τ : Type} (s : service σ τ) (entity : Datasource)
    (st : σ) :
    (entity.spec.default = false →
       (service.validate s entity st =
          match s.validateDatasource entity [] s.sch with
          | .error msg => Except.error (ValidateError.schema msg)
          | .ok u => Except.ok u) ∧
       ∀ dao2 : DAO σ, service.validate { s with dao := dao2 } entity st =
         service.validate s entity st) ∧
    (entity.spec.default = true →
       (∀ e, s.dao.list { project := entity.metadata.project, kind := "", default := false } st = .error e →
          service.validate s entity st = .error (.db e)) ∧
       (∀ l, s.dao.list { project := entity.metadata.project, kind := "", default := false } st = .ok l →
          service.validate s entity st =
            match s.validateDatasource entity l s.sch with
            | .error msg => Except.error (ValidateError.schema msg)
            | .ok u => Except.ok u)) := by
  refine ⟨fun hd => ⟨by simp [service.validate, hd], fun dao2 => by simp [service.validate, hd]⟩,
    fun hd => ⟨fun e he => by simp [service.validate, hd, he],
      fun l hl => by simp [service.validate, hd, hl]⟩⟩

/-- Witness for C7: validation of a non-default entity ignores even an
always-failing DAO; validation of a default-flagged entity surfaces the
list failure as-is, and succeeds against the empty retrieved list. -/
theorem validate_contract_witness :
    service.validate sampleSvc sampleDS [] = .ok () ∧
    service.validate { failingSvc with dao := failingDAO } sampleDS () =
      service.validate failingSvc sampleDS () ∧
    service.validate failingSvc defaultDS () = .error (.db (.failure 7)) ∧
    service.validate sampleSvc defaultDS [] = .ok () := by
  refine ⟨((validate_contract sampleSvc sampleDS []).1 rfl).1.trans rfl,
    ((validate_contract failingSvc sampleDS ()).1 rfl).2 failingDAO,
    (validate_contract failingSvc defaultDS ()).2 rfl |>.1 (.failure 7) rfl,
    ((validate_contract sampleSvc defaultDS []).2 rfl).2 [] rfl |>.trans rfl⟩

/-- Counterexample for C8: on a default-flagged Datasource whose
validation-time list retrieval fails with an unexpected storage failure,
`Create` surfaces the malformed-request kind (wrapping the failure
message), not the internal kind. -/
theorem create_list_failure_counterexample :
    service.Create failingSvc 5 (.datasource defaultDS) () =
      .error (.badRequest "database failure 7") ∧
    service.Create failingSvc 5 (.datasource defaultDS) () ≠
      .error .internal := by
  refine ⟨rfl, fun h => ?_⟩
  rw [show service.Create failingSvc 5 (.datasource defaultDS) () =
      .error (.badRequest "database failure 7") from rfl] at h
  exact ApiError.noConfusion (Except.error.inj h)

/-- Claim C8 (amended): for every Create or Update of a default-flagged
Datasource whose validation-time list retrieval fails, the operation
surfaces that failure wrapped under the malformed-request error kind
(carrying the failure message), not as the internal error. -/
theorem create_update_list_failure_malformed {σ τ : Type} (s : service σ τ)
    (now : Nat) (entity : Datasource) (p : Parameters) (st : σ) (e : DbError)
    (hd : entity.spec.default = true)
    (hl : s.dao.list { project := entity.metadata.project, kind := "", default := false } st = .error e) :
    service.Create s now (.datasource entity) st =
      .error (.badRequest (DbError.message e)) ∧
    service.Update s now (.datasource entity) p st =
      .error (.badRequest (DbError.message e)) := by
  constructor
  · simp [service.Create, service.create, service.validate, hd, hl, ValidateError.message]
  · simp [service.Update, service.update, service.validate, hd, hl, ValidateError.message]

/-- Witness for C8 (amended): the always-failing DAO makes both Create
and Update of the default-flagged sample fail malformed-request with the
wrapped storage failure message. -/
theorem create_update_list_failure_malformed_witness :
    service.Create failingSvc 5 (.datasource defaultDS) () =
      .error (.badRequest "database failure 7") ∧
    service.Update failingSvc 5 (.datasource defaultDS)
      { project := "p1", name := "ds1" } () =
      .error (.badRequest "database failure 7") :=
  create_update_list_failure_malformed failingSvc 5 defaultDS
    { project := "p1", name := "ds1" } () (.failure 7) rfl rfl

/-- Claim C9: updating a default-flagged entity whose project is empty
runs the uniqueness validation against the global (empty-project) scope:
the list is retrieved with the entity's original empty project, a failure
of that retrieval fails the update as malformed-request, a retrieved
global list is what the Schema Validator inspects, and the whole update
outcome is independent of the collaborator's listing of any other scope
(in particular of `parameters.Project`). -/
theorem update_empty_project_validation_scope {σ τ : Type} (s : service σ τ)
    (now : Nat) (entity : Datasource) (p : Parameters) (st : σ)
    (hd : entity.spec.default = true)
    (hp : entity.metadata.project = "") :
    (∀ e, s.dao.list { project := "", kind := "", default := false } st = .error e →
       service.update s now entity p st = .error (.badRequest (DbError.message e))) ∧
    (∀ l, s.dao.list { project := "", kind := "", default := false } st = .ok l →
       service.validate s entity st =
         match s.validateDatasource entity l s.sch with
         | .error msg => Except.error (ValidateError.schema msg)
         | .ok u => Except.ok u) ∧
    (∀ dao2 : DAO σ,
       dao2.list { project := "", kind := "", default := false } st =
         s.dao.list { project := "", kind := "", default := false } st →
       dao2.get = s.dao.get → dao2.update = s.dao.update →
       service.update { s with dao := dao2 } now entity p st =
         service.update s now entity p st) := by
  refine ⟨fun e he => ?_, fun l hl => ?_, fun dao2 hl hg hu => ?_⟩
  · simp [service.update, service.validate, hd, hp, he, ValidateError.message]
  · simp [service.validate, hd, hp, hl]
  · have hval : service.validate { s with dao := dao2 } entity st =
        service.validate s entity st := by
      simp [service.validate, hd, hp, hl]
    rw [service.update, service.update, hval]
    cases hv : service.validate s entity st with
    | error e => rfl
    | ok u =>
        have hGet := get_dao_congr s dao2 p st hg
        simp [hGet, hu]

/-- Witness for C9: a failing global listing fails the update of the
empty-project default entity as malformed-request; validation of that
entity succeeds against the empty global list; and two DAOs agreeing on
the global listing (but answering project-scoped listings differently)
give the same update outcome. -/
theorem update_empty_project_validation_scope_witness :
    service.update failingSvc 5
        { defaultDS with metadata := { defaultDS.metadata with project := "" } }
        { project := "p1", name := "ds1" } () =
      .error (.badRequest "database failure 7") ∧
    service.validate emptyScopeSvc
        { defaultDS with metadata := { defaultDS.metadata with project := "" } } () =
      .ok () ∧
    service.update { emptyScopeSvc with dao := emptyScopeDAO2 } 5
        { defaultDS with metadata := { defaultDS.metadata with project := "" } }
        { project := "p1", name := "ds1" } () =
      service.update emptyScopeSvc 5
        { defaultDS with metadata := { defaultDS.metadata with project := "" } }
        { project := "p1", name := "ds1" } () := by
  refine ⟨(update_empty_project_validation_scope failingSvc 5
      { defaultDS with metadata := { defaultDS.metadata with project := "" } }
      { project := "p1", name := "ds1" } () rfl rfl).1 (.failure 7) rfl,
    ((update_empty_project_validation_scope emptyScopeSvc 5
      { defaultDS with metadata := { defaultDS.metadata with project := "" } }
      { project := "p1", name := "ds1" } () rfl rfl).2.1 [] rfl).trans rfl,
    (update_empty_project_validation_scope emptyScopeSvc 5
      { defaultDS with metadata := { defaultDS.metadata with project := "" } }
      { project := "p1", name := "ds1" } () rfl rfl).2.2 emptyScopeDAO2 rfl rfl rfl⟩

/-- Claim C10: `create` stamps the creation timestamp onto the caller's
entity before attempting the store write, so when the write fails (with
conflict or internal) the caller's entity object has already been mutated
with fresh creation metadata and is not rolled back. -/
theorem create_mutates_before_write {σ τ : Type} (s : service σ τ) (now : Nat)
    (entity : Datasource) (st : σ)
    (hv : service.validate s entity st = .ok ())
    (e : DbError)
    (he : s.dao.create { entity with metadata := entity.metadata.CreateNow now } st = .error e) :
    (service.create s now entity st).2 =
      { entity with metadata := entity.metadata.CreateNow now } ∧
    (entity.metadata.CreateNow now).createdAt = now ∧
    (entity.metadata.CreateNow now).updatedAt = now ∧
    ((service.create s now entity st).1 = .error .conflict ∨
     (service.create s now entity st).1 = .error .internal) := by
  refine ⟨?_, rfl, rfl, ?_⟩
  · cases hc : databaseModel.IsKeyConflict e <;> simp [service.create, hv, he, hc]
  · cases hc : databaseModel.IsKeyConflict e with
    | false => exact Or.inr (by simp [service.create, hv, he, hc])
    | true => exact Or.inl (by simp [service.create, hv, he, hc])

/-- Witness for C10: creating the sample datasource over a store that
already holds its key fails with conflict, yet the caller's entity has
been stamped with the fresh creation metadata (timestamps 5). -/
theorem create_mutates_before_write_witness :
    (service.create sampleSvc 5 sampleDS [sampleDS]).2 =
      { sampleDS with metadata := sampleDS.metadata.CreateNow 5 } ∧
    (sampleDS.metadata.CreateNow 5).createdAt = 5 ∧
    (sampleDS.metadata.CreateNow 5).updatedAt = 5 ∧
    ((service.create sampleSvc 5 sampleDS [sampleDS]).1 = .error .conflict ∨
     (service.create sampleSvc 5 sampleDS [sampleDS]).1 = .error .internal) :=
  create_mutates_before_write sampleSvc 5 sampleDS [sampleDS] rfl .keyConflict rfl

end Perses
